import Mathlib

/-!
Verification of the omnixai NLP example notebook (`nlp.ipynb`).

The notebook is a linear script: it builds a `Text` batch from two strings,
defines a preprocessing lambda (`lambda x: x.values`) and a postprocessing
lambda (`lambda outputs: np.array([[s["score"] for s in ss] for ss in outputs])`),
constructs an `NLPExplainer` facade with five named arguments, calls
`explain`, renders the per-method explanation objects, and finally builds a
`Dashboard` from the input and the explanations and shows it.

The in-file lambdas are embedded directly.  Library classes (`Text`,
`NLPExplainer.explain`, `Dashboard`) are part of the larger project but not
in the provided source, so their behaviour is modelled from the spec where a
claim needs it.  The script itself is embedded as an explicit event trace,
one event per top-level statement, in source order.
-/

namespace Omnixai

/-- Modelled from the spec: `omnixai.data.text.Text` is not part of the provided
source; the spec describes it as "a text-batch value wrapping a sequence of
input strings", constructed from a sequence of strings, whose `values`
attribute recovers that sequence. -/
structure Text where
  values : List String
deriving DecidableEq

/-- The preprocessing lambda from the notebook: `preprocess = lambda x: x.values`. -/
def preprocess (x : Text) : List String :=
  x.values

/-- One record of the model output, as consumed by the postprocessing lambda:
the transformers sentiment pipeline with `return_all_scores=True` yields, per
input, a list of records each carrying a `label` and a `score`; the lambda
reads only `s["score"]`.  The score type is kept as a parameter `α` since the
lambda never computes with it. -/
structure ScoreRecord (α : Type) where
  label : String
  score : α
deriving DecidableEq

/-- The postprocessing lambda from the notebook:
`postprocess = lambda outputs: np.array([[s["score"] for s in ss] for ss in outputs])`.
The nested python list comprehension is embedded as a nested `List.map`; the
`np.array` wrapper only changes the container, not the entries. -/
def postprocess {α : Type} (outputs : List (List (ScoreRecord α))) : List (List α) :=
  outputs.map (fun ss => ss.map (fun s => s.score))

/-- The input text batch of the notebook: `x = Text([...])` with the two
example sentences. -/
def x_input : Text :=
  { values := ["Well, 😴👎🏻😔👎🏻", "Go if you like to 🤢"] }

/-- Modelled from the spec: an explanation object, "an explanation object
exposing a rendering operation".  The `NLPExplainer.explain` implementation is
not in the provided source; the mapping it returns associates each configured
method name with such an object, so the object is modelled as carrying the
method that produced it. -/
structure Explanation where
  method : String
deriving DecidableEq

/-- The explainer facade: the `NLPExplainer` constructor of the notebook takes
exactly five named arguments (`explainers`, `mode`, `model`, `preprocess`,
`postprocess`) and the facade stores them.  The model maps the preprocessed
input (a batch of strings) to per-input lists of score records; the
postprocessing maps those to per-class scores. -/
structure NLPExplainer (α : Type) where
  explainers : List String
  mode : String
  model : List String → List (List (ScoreRecord α))
  preprocess : Text → List String
  postprocess : List (List (ScoreRecord α)) → List (List α)

/-- The concrete `NLPExplainer(...)` constructor call of the notebook,
parameterised by the transformer pipeline `m` (an external model not in the
provided source): `explainers=["shap", "lime"]`, `mode="classification"`,
`model=model`, `preprocess=preprocess`, `postprocess=postprocess`. -/
def explainerCall {α : Type} (m : List String → List (List (ScoreRecord α))) :
    NLPExplainer α :=
  { explainers := ["shap", "lime"]
    mode := "classification"
    model := m
    preprocess := preprocess
    postprocess := postprocess }

/-- The names of the keyword arguments passed at the `NLPExplainer(...)` call
site of the notebook, in source order. -/
def nlpExplainerArgNames : List String :=
  ["explainers", "mode", "model", "preprocess", "postprocess"]

/-- Modelled from the spec: `explainer.explain(x)` "invoke[s] explanation
generation, returning a mapping from method name to explanation object"; the
facade dispatches to each configured explainer method by name.  The mapping is
embedded as an association list keyed by method name. -/
def NLPExplainer.explain {α : Type} (e : NLPExplainer α) (_x : Text) :
    List (String × Explanation) :=
  e.explainers.map (fun name => (name, { method := name }))

/-- The rendering operation exposed by an explanation object
(`ipython_plot` in the notebook); rendering is observable as a plot action
tagged with the method that produced the explanation. -/
def Explanation.ipython_plot (e : Explanation) : String :=
  e.method

/-- The dashboard object: the `Dashboard(...)` constructor of the notebook
takes the test instances and the generated local explanations. -/
structure Dashboard where
  instances : Text
  local_explanations : List (String × Explanation)
deriving DecidableEq

/-- The concrete `Dashboard(...)` constructor call of the notebook,
parameterised by the external transformer pipeline `m`:
`instances=x`, `local_explanations=local_explanations` where
`local_explanations = explainer.explain(x)`. -/
def dashboardCall {α : Type} (m : List String → List (List (ScoreRecord α))) :
    Dashboard :=
  { instances := x_input
    local_explanations := (explainerCall m).explain x_input }

/-- One top-level statement of the notebook script, named after what the
statement does.  `dashShow` stands for the `dashboard.show()` call (the
source name `show` is a Lean keyword). -/
inductive Event where
  | setDefaultRenderer : Event
  | constructText : List String → Event
  | defPreprocess : Event
  | constructModel : Event
  | defPostprocess : Event
  | constructExplainer : List String → String → Event
  | explainCall : Event
  | printMsg : String → Event
  | plotCall : String → Event
  | constructDashboard : Event
  | dashShow : Event
deriving DecidableEq

/-- The notebook script as an event trace, one event per top-level statement,
in source order (imports, which bind names and run no script step, are
omitted). -/
def scriptTrace : List Event :=
  [ Event.setDefaultRenderer
  , Event.constructText ["Well, 😴👎🏻😔👎🏻", "Go if you like to 🤢"]
  , Event.defPreprocess
  , Event.constructModel
  , Event.defPostprocess
  , Event.constructExplainer ["shap", "lime"] "classification"
  , Event.explainCall
  , Event.printMsg "SHAP results:"
  , Event.plotCall "shap"
  , Event.printMsg "LIME results:"
  , Event.plotCall "lime"
  , Event.constructDashboard
  , Event.dashShow ]

/-- Which of the five steps of the observable flow (spec section 2) a script
statement realises: (0) construct input data, (1) construct the model
inference callable plus the pre/post-processing adapters, (2) construct the
explainer facade, (3) call explain, (4) pass input and explanations to a
dashboard object.  Statements outside the five steps (the sphinx renderer
cell, prints, per-explanation rendering, starting the dashboard) map to
`none`. -/
def stepIndex : Event → Option (Fin 5)
  | Event.constructText _ => some 0
  | Event.defPreprocess => some 1
  | Event.constructModel => some 1
  | Event.defPostprocess => some 1
  | Event.constructExplainer _ _ => some 2
  | Event.explainCall => some 3
  | Event.constructDashboard => some 4
  | _ => none

/-- The external collaborators the spec singles out, plus the other external
libraries the notebook touches. -/
inductive Collaborator where
  | explainerEngines : Collaborator
  | dashboardServer : Collaborator
  | plotly : Collaborator
  | transformersLib : Collaborator
deriving DecidableEq

/-- Modelled from the spec: which external collaborator, if any, each script
statement reaches.  The library internals are not in the provided source; per
the spec, `explainer.explain(x)` dispatches to the SHAP/LIME explainer
engines and `dashboard.show()` starts the dashboard server, while the
renderer-default cell and the `ipython_plot` calls go to plotly, the pipeline
construction goes to the transformers library, and the remaining statements
(value constructions, lambda definitions, prints) reach no external
collaborator. -/
def collaboratorOf : Event → Option Collaborator
  | Event.explainCall => some Collaborator.explainerEngines
  | Event.dashShow => some Collaborator.dashboardServer
  | Event.setDefaultRenderer => some Collaborator.plotly
  | Event.plotCall _ => some Collaborator.plotly
  | Event.constructModel => some Collaborator.transformersLib
  | _ => none

/-- Whether a script statement reaches one of the two collaborators the spec
singles out (the SHAP/LIME explainer engines or the dashboard server). -/
def reachesEngineOrServer (e : Event) : Bool :=
  collaboratorOf e == some Collaborator.explainerEngines ||
    collaboratorOf e == some Collaborator.dashboardServer

/-- Sequential execution of a straight-line python script with no exception
handlers: statements run in order; `fail? e = some err` means statement `e`
raises error `err`, which then propagates uncaught, so execution stops there.
Returns the executed prefix of the statement list and the propagated error,
if any. -/
def runCalls (fail? : Event → Option String) : List Event → List Event × Option String
  | [] => ([], none)
  | e :: rest =>
    match fail? e with
    | some err => ([e], some err)
    | none =>
      let r := runCalls fail? rest
      (e :: r.1, r.2)

/-- Execution of the notebook script under the error behaviour `fail?`. -/
def runScript (fail? : Event → Option String) : List Event × Option String :=
  runCalls fail? scriptTrace

/-- A concrete model output of the shape the sentiment pipeline produces: two
inputs, two score records each (used to instantiate hypotheses at a concrete
input). -/
def outsEx : List (List (ScoreRecord Nat)) :=
  [ [ { label := "NEGATIVE", score := 1 }, { label := "POSITIVE", score := 2 } ]
  , [ { label := "NEGATIVE", score := 3 }, { label := "POSITIVE", score := 4 } ] ]

/-- The statements of the notebook before `explainer.explain(x)`. -/
def tracePre : List Event :=
  [ Event.setDefaultRenderer
  , Event.constructText ["Well, 😴👎🏻😔👎🏻", "Go if you like to 🤢"]
  , Event.defPreprocess
  , Event.constructModel
  , Event.defPostprocess
  , Event.constructExplainer ["shap", "lime"] "classification" ]

/-- The statements of the notebook after `explainer.explain(x)`. -/
def tracePost : List Event :=
  [ Event.printMsg "SHAP results:"
  , Event.plotCall "shap"
  , Event.printMsg "LIME results:"
  , Event.plotCall "lime"
  , Event.constructDashboard
  , Event.dashShow ]

/-- An error behaviour where the `explainer.explain(x)` call raises. -/
def failAtExplain : Event → Option String :=
  fun e => if e = Event.explainCall then some "RuntimeError" else none

/-- Two single-record model outputs with equal score fields but different
label fields (used to instantiate the adapter noninterference claim). -/
def outsLabelA : List (List (ScoreRecord Nat)) :=
  [[{ label := "POSITIVE", score := 5 }]]

/-- Counterpart of `outsLabelA` with the label changed and the score kept. -/
def outsLabelB : List (List (ScoreRecord Nat)) :=
  [[{ label := "NEGATIVE", score := 5 }]]

/-- A concrete stand-in for the external transformer pipeline, used to
instantiate theorems that are parametric in the model callable. -/
def modelEx : List String → List (List (ScoreRecord Nat)) :=
  fun _ => outsEx

end Omnixai

/-- Sequential execution stops at the first failing statement: if every
statement of `pre` succeeds and `e` raises `err`, running `pre ++ e :: post`
executes exactly `pre ++ [e]` and propagates `err`. -/
theorem runCalls_stops_at_first_failure (fail? : Omnixai.Event → Option String)
    (pre : List Omnixai.Event) (e : Omnixai.Event) (post : List Omnixai.Event)
    (err : String) (hpre : ∀ e' ∈ pre, fail? e' = none) (he : fail? e = some err) :
    Omnixai.runCalls fail? (pre ++ e :: post) = (pre ++ [e], some err) := by
  induction pre with
  | nil => simp [Omnixai.runCalls, he]
  | cons a pre ih =>
    have ha : fail? a = none := hpre a (List.mem_cons_self a pre)
    have ih2 := ih (fun e' h => hpre e' (List.mem_cons_of_mem a h))
    simp [Omnixai.runCalls, ha, ih2]

/-- C1: for the explainer facade configured with the method names
["shap", "lime"], explanation generation on the input text batch returns a
mapping from method name to explanation object containing the keys "shap" and
"lime", each explanation object exposing the rendering operation
`ipython_plot` (which renders the explanation of its own method). -/
theorem explain_returns_shap_lime_map {α : Type}
    (m : List String → List (List (Omnixai.ScoreRecord α))) :
    (((Omnixai.explainerCall m).explain Omnixai.x_input).lookup "shap").isSome ∧
    (((Omnixai.explainerCall m).explain Omnixai.x_input).lookup "lime").isSome ∧
    ∀ p ∈ (Omnixai.explainerCall m).explain Omnixai.x_input,
      p.2.ipython_plot = p.1 := by
  refine ⟨rfl, rfl, ?_⟩
  intro p hp
  simp only [Omnixai.NLPExplainer.explain, Omnixai.explainerCall, List.mem_map,
    List.mem_cons] at hp
  rcases hp with ⟨name, _, rfl⟩
  rfl

/-- Witness for C1 at the concrete model `modelEx`. -/
theorem explain_returns_shap_lime_map_witness :
    (((Omnixai.explainerCall Omnixai.modelEx).explain Omnixai.x_input).lookup
        "shap").isSome ∧
    (((Omnixai.explainerCall Omnixai.modelEx).explain Omnixai.x_input).lookup
        "lime").isSome ∧
    ∀ p ∈ (Omnixai.explainerCall Omnixai.modelEx).explain Omnixai.x_input,
      p.2.ipython_plot = p.1 :=
  explain_returns_shap_lime_map Omnixai.modelEx

/-- C2: the preprocessing adapter exactly recovers the sequence of strings
wrapped at construction: for every list of strings L,
`preprocess (Text L) = L`. -/
theorem preprocess_text_roundtrip (L : List String) :
    Omnixai.preprocess { values := L } = L :=
  rfl

/-- Witness for C2 at the concrete input strings of the notebook. -/
theorem preprocess_text_roundtrip_witness :
    Omnixai.preprocess { values := ["Well, 😴👎🏻😔👎🏻", "Go if you like to 🤢"] }
      = ["Well, 😴👎🏻😔👎🏻", "Go if you like to 🤢"] :=
  preprocess_text_roundtrip ["Well, 😴👎🏻😔👎🏻", "Go if you like to 🤢"]

/-- C3: for a model output that is a list of inner lists of k score records
each, postprocessing returns an array with one row per inner list, each row of
length k, whose entry (i, j) is the score field of the j-th record of the i-th
inner list. -/
theorem postprocess_entry_is_score {α : Type}
    (outs : List (List (Omnixai.ScoreRecord α))) (k : Nat)
    (hk : ∀ l ∈ outs, l.length = k) :
    (Omnixai.postprocess outs).length = outs.length ∧
    (∀ r ∈ Omnixai.postprocess outs, r.length = k) ∧
    ∀ i j : Nat,
      ((Omnixai.postprocess outs).get? i).bind (fun r => r.get? j)
        = ((outs.get? i).bind (fun r => r.get? j)).map Omnixai.ScoreRecord.score := by
  refine ⟨by simp [Omnixai.postprocess], ?_, ?_⟩
  · intro r hr
    rcases List.mem_map.mp hr with ⟨l, hl, rfl⟩
    simpa using hk l hl
  · intro i j
    simp only [Omnixai.postprocess, List.get?_map]
    cases outs.get? i with
    | none => rfl
    | some l => simp [List.get?_map]

/-- Witness for C3 at the concrete output `outsEx` (two inner lists of two
records each). -/
theorem postprocess_entry_is_score_witness :
    (∀ l ∈ Omnixai.outsEx, l.length = 2) ∧
    ((Omnixai.postprocess Omnixai.outsEx).length = Omnixai.outsEx.length ∧
      (∀ r ∈ Omnixai.postprocess Omnixai.outsEx, r.length = 2) ∧
      ∀ i j : Nat,
        ((Omnixai.postprocess Omnixai.outsEx).get? i).bind (fun r => r.get? j)
          = ((Omnixai.outsEx.get? i).bind (fun r => r.get? j)).map
              Omnixai.ScoreRecord.score) :=
  ⟨by decide, postprocess_entry_is_score Omnixai.outsEx 2 (by decide)⟩

/-- C4: the script realises the five steps of the observable flow — construct
input, construct model plus adapters, construct the explainer facade, call
explain, pass input and explanations to the dashboard — each step occurs in
the trace, and the step indices along the trace are nondecreasing (no step out
of order, no step skipped). -/
theorem script_five_steps_in_order :
    (∀ s : Fin 5, s ∈ Omnixai.scriptTrace.filterMap Omnixai.stepIndex) ∧
    (Omnixai.scriptTrace.filterMap Omnixai.stepIndex).Pairwise (· ≤ ·) := by
  decide

/-- C5: the `NLPExplainer` constructor call passes exactly the five arguments
`explainers=["shap", "lime"]`, `mode="classification"`, the model callable,
the preprocessing function and the postprocessing function, and the keyword
names at the call site are exactly those five. -/
theorem explainer_call_five_args {α : Type}
    (m : List String → List (List (Omnixai.ScoreRecord α))) :
    (Omnixai.explainerCall m).explainers = ["shap", "lime"] ∧
    (Omnixai.explainerCall m).mode = "classification" ∧
    (Omnixai.explainerCall m).model = m ∧
    (Omnixai.explainerCall m).preprocess = Omnixai.preprocess ∧
    (Omnixai.explainerCall m).postprocess = Omnixai.postprocess ∧
    Omnixai.nlpExplainerArgNames
      = ["explainers", "mode", "model", "preprocess", "postprocess"] :=
  ⟨rfl, rfl, rfl, rfl, rfl, rfl⟩

/-- Witness for C5 at the concrete model `modelEx`. -/
theorem explainer_call_five_args_witness :
    (Omnixai.explainerCall Omnixai.modelEx).explainers = ["shap", "lime"] ∧
    (Omnixai.explainerCall Omnixai.modelEx).mode = "classification" ∧
    (Omnixai.explainerCall Omnixai.modelEx).model = Omnixai.modelEx ∧
    (Omnixai.explainerCall Omnixai.modelEx).preprocess = Omnixai.preprocess ∧
    (Omnixai.explainerCall Omnixai.modelEx).postprocess = Omnixai.postprocess ∧
    Omnixai.nlpExplainerArgNames
      = ["explainers", "mode", "model", "preprocess", "postprocess"] :=
  explainer_call_five_args Omnixai.modelEx

/-- C6: after the explain call, the script renders each explanation object
exactly once: `plotCall "shap"` and `plotCall "lime"` each occur exactly once
in the trace, and both occur after the `explainCall` event. -/
theorem plot_called_once_per_method_after_explain :
    Omnixai.scriptTrace.count (Omnixai.Event.plotCall "shap") = 1 ∧
    Omnixai.scriptTrace.count (Omnixai.Event.plotCall "lime") = 1 ∧
    Omnixai.scriptTrace.indexOf Omnixai.Event.explainCall
      < Omnixai.scriptTrace.indexOf (Omnixai.Event.plotCall "shap") ∧
    Omnixai.scriptTrace.indexOf Omnixai.Event.explainCall
      < Omnixai.scriptTrace.indexOf (Omnixai.Event.plotCall "lime") := by
  decide

/-- C7: the dashboard is constructed from exactly the input text batch and the
mapping returned by explain (`instances=x`,
`local_explanations=explainer.explain(x)`), and its show operation is then
invoked: the trace shows `dashboard.show()` exactly once, after the dashboard
construction. -/
theorem dashboard_built_from_input_and_explanations {α : Type}
    (m : List String → List (List (Omnixai.ScoreRecord α))) :
    (Omnixai.dashboardCall m).instances = Omnixai.x_input ∧
    (Omnixai.dashboardCall m).local_explanations
      = (Omnixai.explainerCall m).explain Omnixai.x_input ∧
    Omnixai.scriptTrace.count Omnixai.Event.dashShow = 1 ∧
    Omnixai.scriptTrace.indexOf Omnixai.Event.constructDashboard
      < Omnixai.scriptTrace.indexOf Omnixai.Event.dashShow :=
  ⟨rfl, rfl, by decide, by decide⟩

/-- Witness for C7 at the concrete model `modelEx`. -/
theorem dashboard_built_from_input_and_explanations_witness :
    (Omnixai.dashboardCall Omnixai.modelEx).instances = Omnixai.x_input ∧
    (Omnixai.dashboardCall Omnixai.modelEx).local_explanations
      = (Omnixai.explainerCall Omnixai.modelEx).explain Omnixai.x_input ∧
    Omnixai.scriptTrace.count Omnixai.Event.dashShow = 1 ∧
    Omnixai.scriptTrace.indexOf Omnixai.Event.constructDashboard
      < Omnixai.scriptTrace.indexOf Omnixai.Event.dashShow :=
  dashboard_built_from_input_and_explanations Omnixai.modelEx

/-- C8: the only statements of the script that reach the SHAP/LIME explainer
engines or the dashboard server are `explainer.explain(x)` and
`dashboard.show()`, in that order. -/
theorem engines_and_server_reached_only_twice :
    Omnixai.scriptTrace.filter Omnixai.reachesEngineOrServer
      = [Omnixai.Event.explainCall, Omnixai.Event.dashShow] := by
  decide

/-- C9: the script has no error handling of its own: if every statement
before `e` succeeds and `e` raises `err`, the script executes exactly the
statements up to and including `e` (so the values constructed are exactly
those of the successful prefix), no later statement runs, and `err`
propagates out as the script result. -/
theorem script_error_propagates_uncaught (fail? : Omnixai.Event → Option String)
    (pre : List Omnixai.Event) (e : Omnixai.Event) (post : List Omnixai.Event)
    (err : String)
    (hsplit : Omnixai.scriptTrace = pre ++ e :: post)
    (hpre : ∀ e' ∈ pre, fail? e' = none)
    (he : fail? e = some err) :
    Omnixai.runScript fail? = (pre ++ [e], some err) := by
  rw [Omnixai.runScript, hsplit]
  exact runCalls_stops_at_first_failure fail? pre e post err hpre he

/-- Witness for C9: when the explain call raises, exactly the six statements
before it and the explain call itself execute, and the error propagates. -/
theorem script_error_propagates_uncaught_witness :
    (Omnixai.scriptTrace
        = Omnixai.tracePre ++ Omnixai.Event.explainCall :: Omnixai.tracePost) ∧
    (∀ e' ∈ Omnixai.tracePre, Omnixai.failAtExplain e' = none) ∧
    Omnixai.failAtExplain Omnixai.Event.explainCall = some "RuntimeError" ∧
    Omnixai.runScript Omnixai.failAtExplain
      = (Omnixai.tracePre ++ [Omnixai.Event.explainCall], some "RuntimeError") :=
  ⟨rfl, by decide, rfl,
    script_error_propagates_uncaught Omnixai.failAtExplain Omnixai.tracePre
      Omnixai.Event.explainCall Omnixai.tracePost "RuntimeError" rfl
      (by decide) rfl⟩

/-- C10: the two adapter lambdas are pure and read only the stated fields:
preprocessing depends only on the text batch's `values` field, and
postprocessing depends only on the per-record `score` fields (two inputs
agreeing on those fields, including shape, yield equal outputs); determinism
on equal inputs is immediate since both are functions of their argument. -/
theorem adapters_pure_and_field_confined {α : Type}
    (x₁ x₂ : Omnixai.Text)
    (outs₁ outs₂ : List (List (Omnixai.ScoreRecord α)))
    (hx : x₁.values = x₂.values)
    (hlen : ∀ i : Nat, (outs₁.get? i).map List.length = (outs₂.get? i).map List.length)
    (hscore : ∀ i j : Nat,
      ((outs₁.get? i).bind (fun r => r.get? j)).map Omnixai.ScoreRecord.score
        = ((outs₂.get? i).bind (fun r => r.get? j)).map Omnixai.ScoreRecord.score) :
    Omnixai.preprocess x₁ = Omnixai.preprocess x₂ ∧
    Omnixai.postprocess outs₁ = Omnixai.postprocess outs₂ := by
  constructor
  · simpa [Omnixai.preprocess] using hx
  · apply List.ext_get?
    intro i
    simp only [Omnixai.postprocess, List.get?_map]
    have h1 := hlen i
    cases ho1 : outs₁.get? i with
    | none =>
      cases ho2 : outs₂.get? i with
      | none => rfl
      | some l₂ => rw [ho1, ho2] at h1; simp at h1
    | some l₁ =>
      cases ho2 : outs₂.get? i with
      | none => rw [ho1, ho2] at h1; simp at h1
      | some l₂ =>
        simp only [Option.map_some']
        congr 1
        apply List.ext_get?
        intro j
        have h2 := hscore i j
        rw [ho1, ho2] at h2
        simpa [List.get?_map] using h2

/-- Witness for C10: two model outputs with equal scores but different labels
give equal postprocessing results. -/
theorem adapters_pure_and_field_confined_witness :
    (Omnixai.x_input.values = Omnixai.x_input.values) ∧
    (∀ i : Nat, (Omnixai.outsLabelA.get? i).map List.length
        = (Omnixai.outsLabelB.get? i).map List.length) ∧
    (∀ i j : Nat,
      ((Omnixai.outsLabelA.get? i).bind (fun r => r.get? j)).map
          Omnixai.ScoreRecord.score
        = ((Omnixai.outsLabelB.get? i).bind (fun r => r.get? j)).map
            Omnixai.ScoreRecord.score) ∧
    (Omnixai.preprocess Omnixai.x_input = Omnixai.preprocess Omnixai.x_input ∧
      Omnixai.postprocess Omnixai.outsLabelA
        = Omnixai.postprocess Omnixai.outsLabelB) :=
  ⟨rfl, fun i => by cases i <;> rfl,
    fun i j => by cases i <;> cases j <;> rfl,
    adapters_pure_and_field_confined Omnixai.x_input Omnixai.x_input
      Omnixai.outsLabelA Omnixai.outsLabelB rfl
      (fun i => by cases i <;> rfl)
      (fun i j => by cases i <;> cases j <;> rfl)⟩
